import Mathlib

/-!
Verification of the Routing Table Change Tracker (`tracker.py`).

This file gives a shallow embedding of the tracker's core cycle:
snapshot comparison (`compare_and_log_changes`), snapshot persistence
(`load_previous_snapshot`, `save_snapshot`), statistics collection
(`collect_network_stats`), and the single-shot / periodic drivers
(`run_once`, `run_periodically`).  Effectful Python code is embedded as
pure functions over an explicit environment (the results and failure
modes of the external world: the SSH/local acquisition backends, the
filesystem, and psutil) and an explicit snapshot-file state
(`Option String`: `none` when the snapshot file does not exist).
-/

namespace Tracker

/-! ## Python `str.splitlines`

Python's `str.splitlines` splits at the line boundaries `\n`, `\r`,
`\r\n` (one boundary), `\v`, `\f`, `\x1c`, `\x1d`, `\x1e`, `\x85`,
`U+2028` and `U+2029`.  With `keepends=True` the terminators are kept,
so concatenating the lines recovers the original string. -/

def isLineBreak (c : Char) : Bool :=
  c == '\n' || c == '\r' || c == '\x0b' || c == '\x0c' ||
  c == '\x1c' || c == '\x1d' || c == '\x1e' || c == '\x85' ||
  c == '\u2028' || c == '\u2029'

def splitlinesChars (keepends : Bool) : List Char → List (List Char)
  | [] => []
  | '\r' :: '\n' :: cs =>
    (if keepends then ['\r', '\n'] else []) :: splitlinesChars keepends cs
  | c :: cs =>
    if isLineBreak c then
      (if keepends then [c] else []) :: splitlinesChars keepends cs
    else
      match splitlinesChars keepends cs with
      | [] => [[c]]
      | l :: ls => (c :: l) :: ls

/-- Embedding of Python `s.splitlines(keepends)` on Lean strings. -/
def pySplitlines (keepends : Bool) (s : String) : List String :=
  (splitlinesChars keepends s.data).map String.mk

set_option maxHeartbeats 1000000 in
/-- With `keepends := true`, concatenating the split lines recovers the
original character list (no character is dropped or invented). -/
theorem join_splitlinesChars (l : List Char) :
    (splitlinesChars true l).flatten = l := by
  induction l using splitlinesChars.induct true with
  | case1 => rfl
  | case2 cs ih =>
    rw [splitlinesChars.eq_2]
    simpa using ih
  | case3 c cs hne hbr ih =>
    rw [splitlinesChars.eq_3 true c cs hne, if_pos hbr]
    simpa using ih
  | case4 c cs hne hbr hnil ih =>
    rw [splitlinesChars.eq_3 true c cs hne, if_neg hbr, hnil]
    rw [hnil] at ih
    simp only [List.flatten_nil] at ih
    simp [← ih]
  | case5 c cs hne hbr l ls hcons ih =>
    rw [splitlinesChars.eq_3 true c cs hne, if_neg hbr, hcons]
    rw [hcons] at ih
    simp only [List.flatten_cons] at ih ⊢
    simp [ih]

/-- `splitlines(keepends=True)` is injective: distinct texts have
distinct keepends line lists. -/
theorem pySplitlines_true_injective {a b : String}
    (h : pySplitlines true a = pySplitlines true b) : a = b := by
  have hmk : Function.Injective String.mk := fun x y hxy => congrArg String.data hxy
  have hlists : splitlinesChars true a.data = splitlinesChars true b.data :=
    List.map_injective_iff.mpr hmk h
  have hdata : a.data = b.data := by
    rw [← join_splitlinesChars a.data, ← join_splitlinesChars b.data, hlists]
  exact String.toList_inj.mp hdata

/-! ## DiffEngine: `RouteTracker.compare_and_log_changes`

The source logs its findings; the embedding collects the same data in a
`ChangeReport` record: the early-return no-change case, the unified diff
of the keepends line lists, and the sorted added/removed route lines
(the `for route in sorted(added): if route.strip():` loops report the
sorted set differences with whitespace-only lines skipped). -/

/-- Python's `str` whitespace, as stripped by `str.strip()` with no
argument: `\t`-`\r` (0x09-0x0d), the separators 0x1c-0x1f, space, 0x85,
U+00A0, U+1680, U+2000-U+200A, U+2028, U+2029, U+202F, U+205F and
U+3000. -/
def isPyWhitespace (c : Char) : Bool :=
  (0x09 ≤ c.toNat && c.toNat ≤ 0x0d) ||
  (0x1c ≤ c.toNat && c.toNat ≤ 0x1f) ||
  c == ' ' || c == '\x85' || c == '\u00a0' || c == '\u1680' ||
  (0x2000 ≤ c.toNat && c.toNat ≤ 0x200a) ||
  c == '\u2028' || c == '\u2029' || c == '\u202f' || c == '\u205f' ||
  c == '\u3000'

/-- Python truthiness of `route.strip()`: `isBlank r = true` iff the line
is empty or whitespace-only (under Python's Unicode whitespace), i.e.
`route.strip()` is falsy. -/
def isBlank (s : String) : Bool :=
  s.data.all isPyWhitespace

/-- `set(text.splitlines())` — the line set of a snapshot, as a
duplicate-free list (membership is all that is used of it). -/
def lineSet (s : String) : List String :=
  (pySplitlines false s).dedup

/-- The string comparison used by Python's `sorted` on strings:
lexicographic by code point, i.e. the lexicographic order on the
character lists. -/
def pyStrLe (a b : String) : Prop :=
  a.data ≤ b.data

instance : DecidableRel pyStrLe :=
  fun a b => inferInstanceAs (Decidable (a.data ≤ b.data))

/-- `pyStrLe` agrees with the linear order on `String`. -/
theorem pyStrLe_iff_le {a b : String} : pyStrLe a b ↔ a ≤ b := by
  rw [String.le_iff_toList_le]
  exact Iff.rfl

instance : IsTotal String pyStrLe :=
  ⟨fun a b => by
    rcases le_total a b with h | h
    · exact Or.inl (pyStrLe_iff_le.mpr h)
    · exact Or.inr (pyStrLe_iff_le.mpr h)⟩

instance : IsTrans String pyStrLe :=
  ⟨fun _ _ _ hab hbc =>
    pyStrLe_iff_le.mpr (le_trans (pyStrLe_iff_le.mp hab) (pyStrLe_iff_le.mp hbc))⟩

/-- The sequence of route lines the source actually reports for one of
the `added`/`removed` sets: Python iterates `sorted(added)` and skips
lines whose `strip()` is empty. -/
def sortedReport (l : List String) : List String :=
  (List.insertionSort pyStrLe l).filter (fun r => !(isBlank r))

/-- Model of the Python standard library's `difflib.unified_diff`
(external to this repository, called at `tracker.py` line 217 with
`lineterm=''`).  Its hunk construction is abstracted: the model emits
the two `---`/`+++` header lines followed by the removed and added
lines.  It preserves the interface property of `difflib.unified_diff`
that is relied on here: the output is empty iff the two input line
sequences are equal (when they differ, `get_grouped_opcodes` yields at
least one opcode group, so at least the header lines are emitted). -/
def unified_diff (fromfile tofile : String) (a b : List String) : List String :=
  if a = b then []
  else
    ("--- " ++ fromfile) :: ("+++ " ++ tofile) ::
      (a.map (fun l => "-" ++ l) ++ b.map (fun l => "+" ++ l))

/-- The structured change report of one comparison (spec §3
`ChangeReport`): `unchanged`, the unified-diff lines, and the reported
added/removed route lines. -/
structure ChangeReport where
  unchanged : Bool
  diffLines : List String
  added : List String
  removed : List String
deriving DecidableEq

/-- Embedding of `RouteTracker.compare_and_log_changes` (tracker.py
lines 204-253).  Step 1: byte-exact equality short-circuits to the
no-change report.  Step 2: unified diff of the `splitlines(keepends=True)`
line lists.  Step 3: set difference of the `splitlines()` line sets,
reported sorted with blank lines skipped. -/
def compare_and_log_changes (previous current : String) : ChangeReport :=
  if previous = current then
    { unchanged := true, diffLines := [], added := [], removed := [] }
  else
    let previous_lines := pySplitlines true previous
    let current_lines := pySplitlines true current
    let diff_output := unified_diff "Previous Routes" "Current Routes"
      previous_lines current_lines
    let previous_set := lineSet previous
    let current_set := lineSet current
    let added := current_set.filter (fun l => decide (l ∉ previous_set))
    let removed := previous_set.filter (fun l => decide (l ∉ current_set))
    { unchanged := false, diffLines := diff_output,
      added := sortedReport added, removed := sortedReport removed }

example :
    (compare_and_log_changes "10.0.0.0/8 via eth0\n192.168.1.0/24 via eth1\n"
      "10.0.0.0/8 via eth0\n192.168.2.0/24 via eth1\n").added =
      ["192.168.2.0/24 via eth1"] := by decide

example :
    (compare_and_log_changes "10.0.0.0/8 via eth0\n192.168.1.0/24 via eth1\n"
      "10.0.0.0/8 via eth0\n192.168.2.0/24 via eth1\n").removed =
      ["192.168.1.0/24 via eth1"] := by decide

example : (compare_and_log_changes "a\nb\n" "b\na\n").added = [] := by decide

example : (compare_and_log_changes "a\nb\n" "b\na\n").diffLines ≠ [] := by decide

example : (compare_and_log_changes "a\n" "a\n  \n").added = [] := by decide

example : (compare_and_log_changes "a\n" "a\n\u00a0\n").added = [] := by decide

example : isBlank "   \t" = true := by decide

example : (compare_and_log_changes "b\na\nc\n" "b\nz\ny\n").added = ["y", "z"] := by
  decide

/-! ## Configuration and environment

The configuration mirrors the parts of `config.yaml` the core reads.
The environment packages the behaviour of the external collaborators
during one cycle: what the acquisition backends return (netmiko /
subprocess, spec §1 external), and which filesystem / psutil operations
raise.  The persisted snapshot file is an explicit `Option String`
(`none` = file does not exist, matching `os.path.exists`). -/

structure SnapshotCfg where
  store_previous : Bool
  snapshot_file : String
deriving DecidableEq

structure StatsCfg where
  enabled : Bool
  collect_traffic : Bool
  collect_connections : Bool
  collect_ports : Bool
deriving DecidableEq

structure Config where
  mode : String
  snapshot : SnapshotCfg
  statistics : StatsCfg
deriving DecidableEq

structure Env where
  /-- What `get_routes_ssh` returns: the routing-table text, or `none`
  on any of its failure paths (netmiko missing, SSH disabled in config,
  connection error). -/
  ssh_result : Option String
  /-- What `get_routes_local` returns: the command's stdout on exit
  code 0, or `none` on non-zero exit, timeout, or execution error. -/
  local_result : Option String
  /-- `open(snapshot_file, 'r').read()` raises for the existing file. -/
  readRaises : Bool
  /-- `os.makedirs(dirname, exist_ok=True)` raises for a non-empty
  dirname (permissions, path occupied by a file, ...). -/
  mkdirRaises : Bool
  /-- `open(snapshot_file, 'w')` itself raises (the file is untouched). -/
  openRaises : Bool
  /-- `f.write(routes)` (or the flush on closing the `with` block)
  raises after `open(snapshot_file, 'w')` succeeded — by then the open
  has already truncated the existing file. -/
  writeRaises : Bool
  /-- A psutil call inside the `try` of `collect_network_stats` raises. -/
  psutilRaises : Bool
deriving DecidableEq

/-- Embedding of `RouteTracker.check_routes` (tracker.py lines 162-172):
dispatch on the configured mode string; an invalid mode logs an error
and returns `None`. -/
def check_routes (cfg : Config) (env : Env) : Option String :=
  if cfg.mode = "ssh" then env.ssh_result
  else if cfg.mode = "local" then env.local_result
  else none

/-! ## SnapshotStore: `load_previous_snapshot` and `save_snapshot` -/

/-- Embedding of `RouteTracker.load_previous_snapshot` (tracker.py lines
174-188): `None` when persistence is disabled; `None` when the snapshot
file does not exist; the file's content, or `None` with a warning when
reading it raises. -/
def load_previous_snapshot (cfg : Config) (env : Env) (fs : Option String) :
    Option String :=
  if !cfg.snapshot.store_previous then none
  else
    match fs with
    | some content => if env.readRaises then none else some content
    | none => none

/-- Python `os.path.dirname` for POSIX paths: the part of the path
before the last `/`, with trailing slashes stripped unless the head is
all slashes. -/
def dirname (p : String) : String :=
  let head := (p.data.reverse.dropWhile (fun c => !(c == '/'))).reverse
  if head ≠ [] ∧ ¬head.all (fun c => c == '/') then
    String.mk ((head.reverse.dropWhile (fun c => c == '/')).reverse)
  else
    String.mk head

example : dirname "snapshots/previous_routes.txt" = "snapshots" := by decide

example : dirname "previous_routes.txt" = "" := by decide

/-- The body of the `try` in `RouteTracker.save_snapshot` (tracker.py
lines 197-200): `os.makedirs(os.path.dirname(snapshot_file),
exist_ok=True)` followed by `open(snapshot_file, 'w')` and the write.
`os.makedirs('')` always raises `FileNotFoundError`, even with
`exist_ok=True` (it ends up calling `mkdir('')`, and `''` is not a
directory), so a snapshot path with no directory component always fails
here.  An error carries the file state it leaves behind: makedirs and a
failing `open` leave the file as it was, but once `open(snapshot_file,
'w')` has succeeded the existing file is truncated, so a write that then
raises leaves the truncated (empty) file, not the old content. -/
def save_snapshot_body (cfg : Config) (env : Env) (fs : Option String)
    (routes : String) : Except (String × Option String) (Option String) :=
  if dirname cfg.snapshot.snapshot_file = "" then
    Except.error ("FileNotFoundError: ''", fs)
  else if env.mkdirRaises then
    Except.error ("OSError: makedirs", fs)
  else if env.openRaises then
    Except.error ("OSError: open", fs)
  else if env.writeRaises then
    Except.error ("OSError: write", some "")
  else
    Except.ok (some routes)

/-- Embedding of `RouteTracker.save_snapshot` (tracker.py lines
190-202): a no-op when persistence is disabled; otherwise the try-body
with every exception caught and logged as a warning (`except Exception
as e: logging.warning(...)`), so the function always returns a file
state and never raises — the file state being whatever the failed body
left behind. -/
def save_snapshot (cfg : Config) (env : Env) (fs : Option String)
    (routes : String) : Option String :=
  if !cfg.snapshot.store_previous then fs
  else
    match save_snapshot_body cfg env fs routes with
    | Except.ok fs2 => fs2
    | Except.error (_, fs2) => fs2

/-! ## StatsReporter: `collect_network_stats` -/

/-- The body of the `try` in `RouteTracker.collect_network_stats`
(tracker.py lines 263-310): the psutil calls, abstracted to their
failure behaviour.  Besides psutil errors, the body raises a `NameError`
when `collect_ports` is enabled but `collect_connections` is not: the
ports block reads the local variable `connections`, which only the
connections block assigns. -/
def collect_network_stats_body (cfg : StatsCfg) (env : Env) :
    Except String Unit :=
  if env.psutilRaises then Except.error "psutil error"
  else if cfg.collect_ports && !cfg.collect_connections then
    Except.error "NameError: name connections is not defined"
  else Except.ok ()

/-- Embedding of `RouteTracker.collect_network_stats` (tracker.py lines
255-315): returns immediately when statistics are disabled; otherwise
runs the try-body, catching any exception and logging it as an error
(`except Exception as e: logging.error(...)`).  The returned Bool
records whether the statistics block completed (the caller ignores it,
as `run_once` ignores the Python function's `None` return). -/
def collect_network_stats (cfg : StatsCfg) (env : Env) : Bool :=
  if !cfg.enabled then true
  else
    match collect_network_stats_body cfg env with
    | Except.ok _ => true
    | Except.error _ => false

/-! ## CycleRunner: `run_once` and `run_periodically` -/

/-- The observable steps of one cycle, in execution order. -/
inductive Step where
  | acquire
  | load
  | firstRunReport
  | compareStep
  | stats
  | save
deriving DecidableEq

/-- The outcome of one `run_once` call: the returned success flag, the
reports it emitted (first-run line count, comparison report), the
snapshot-file state after the call, and the trace of steps executed. -/
structure RunResult where
  success : Bool
  firstRun : Bool
  firstRunLineCount : Option Nat
  compared : Option ChangeReport
  statsOk : Option Bool
  fs : Option String
  steps : List Step
deriving DecidableEq

/-- Embedding of `RouteTracker.run_once` (tracker.py lines 330-358):
acquire the current routing table (on failure, log an error and return
`False` immediately); load the previous snapshot (`None` = first run:
log the current snapshot's `len(current_routes.splitlines())`; otherwise
compare); collect network statistics; save the current snapshot; return
`True`. -/
def run_once (cfg : Config) (env : Env) (fs : Option String) : RunResult :=
  match check_routes cfg env with
  | none =>
    { success := false, firstRun := false, firstRunLineCount := none,
      compared := none, statsOk := none, fs := fs, steps := [Step.acquire] }
  | some current_routes =>
    match load_previous_snapshot cfg env fs with
    | none =>
      { success := true, firstRun := true,
        firstRunLineCount := some (pySplitlines false current_routes).length,
        compared := none,
        statsOk := some (collect_network_stats cfg.statistics env),
        fs := save_snapshot cfg env fs current_routes,
        steps := [Step.acquire, Step.load, Step.firstRunReport, Step.stats,
          Step.save] }
    | some previous_routes =>
      { success := true, firstRun := false, firstRunLineCount := none,
        compared := some (compare_and_log_changes previous_routes current_routes),
        statsOk := some (collect_network_stats cfg.statistics env),
        fs := save_snapshot cfg env fs current_routes,
        steps := [Step.acquire, Step.load, Step.compareStep, Step.stats,
          Step.save] }

/-- How one iteration of the daemon loop ends, seen from
`run_periodically`'s `try`: `run_once` returned a result (its routine
failures are caught inside `run_once` and reported as `False`), or an
unexpected exception escaped the cycle, or `KeyboardInterrupt` arrived. -/
inductive CycleOutcome where
  | result : RunResult → CycleOutcome
  | raises : String → CycleOutcome
  | interrupt : CycleOutcome

/-- How the daemon loop of `run_periodically` (tracker.py lines 360-382)
ends after a bounded number of iterations: stopped cleanly by
`KeyboardInterrupt` (logged shutdown), an unexpected exception logged
and re-raised (`except Exception as e: ...; raise`), or still running
with the given number of completed cycles when the fuel ran out. -/
inductive LoopExit where
  | stopped : Nat → LoopExit
  | raised : String → Nat → LoopExit
  | running : Nat → LoopExit
deriving DecidableEq

/-- Embedding of the loop of `RouteTracker.run_periodically`: cycle `i`
runs to completion before the next sleep; a `CycleOutcome.result` —
successful or failed — never leaves the loop, while an interrupt stops
it cleanly and an unexpected exception is re-raised.  `fuel` bounds how
many further iterations are observed. -/
def run_periodically (outcomes : Nat → CycleOutcome) : Nat → Nat → LoopExit
  | i, 0 => LoopExit.running i
  | i, fuel + 1 =>
    match outcomes i with
    | CycleOutcome.interrupt => LoopExit.stopped i
    | CycleOutcome.raises e => LoopExit.raised e i
    | CycleOutcome.result _ => run_periodically outcomes (i + 1) fuel

/-! ## Helper lemmas about the comparison -/

/-- `compare_and_log_changes` on identical texts takes the early-return
branch. -/
theorem compare_self (a : String) :
    compare_and_log_changes a a =
      { unchanged := true, diffLines := [], added := [], removed := [] } := by
  simp [compare_and_log_changes]

/-- Unfolding of `compare_and_log_changes` on distinct texts. -/
theorem compare_of_ne {p c : String} (h : p ≠ c) :
    compare_and_log_changes p c =
      { unchanged := false,
        diffLines := unified_diff "Previous Routes" "Current Routes"
          (pySplitlines true p) (pySplitlines true c),
        added := sortedReport
          ((lineSet c).filter (fun l => decide (l ∉ lineSet p))),
        removed := sortedReport
          ((lineSet p).filter (fun l => decide (l ∉ lineSet c))) } := by
  simp [compare_and_log_changes, h]

/-- Distinct texts always produce a non-empty unified diff: the keepends
line lists differ (by injectivity of keepends splitting), so the diff
carries at least its header lines. -/
theorem compare_diffLines_ne_nil {p c : String} (h : p ≠ c) :
    (compare_and_log_changes p c).diffLines ≠ [] := by
  rw [compare_of_ne h]
  have hne : pySplitlines true p ≠ pySplitlines true c :=
    fun he => h (pySplitlines_true_injective he)
  simp [unified_diff, hne]

/-- Membership in a reported added/removed list comes from the
underlying set and is never a blank line. -/
theorem mem_sortedReport {x : String} {l : List String}
    (h : x ∈ sortedReport l) : x ∈ l ∧ isBlank x = false := by
  unfold sortedReport at h
  rcases List.mem_filter.mp h with ⟨hs, hb⟩
  exact ⟨(List.perm_insertionSort pyStrLe l).mem_iff.mp hs, by
    simpa using hb⟩

/-- A reported added/removed list is sorted in the string order. -/
theorem sorted_sortedReport (l : List String) :
    List.Sorted (· ≤ ·) (sortedReport l) := by
  unfold sortedReport
  have h : List.Sorted (· ≤ ·) (List.insertionSort pyStrLe l) :=
    (List.sorted_insertionSort pyStrLe l).imp (fun hx => pyStrLe_iff_le.mp hx)
  exact List.Pairwise.sublist (List.filter_sublist _) h

/-! ## Claims about the DiffEngine -/

/-- C1: `unchanged = true` iff `added`, `removed` and `diffLines` are
all empty; `unchanged = true` iff the two snapshot texts are
byte-identical; and `compare(A, A)` is the no-change report with empty
diff, added and removed. -/
theorem compare_unchanged_iff (previous current : String) :
    ((compare_and_log_changes previous current).unchanged = true ↔
      (compare_and_log_changes previous current).added = [] ∧
      (compare_and_log_changes previous current).removed = [] ∧
      (compare_and_log_changes previous current).diffLines = []) ∧
    ((compare_and_log_changes previous current).unchanged = true ↔
      previous = current) ∧
    compare_and_log_changes previous previous =
      { unchanged := true, diffLines := [], added := [], removed := [] } := by
  refine ⟨?_, ?_, compare_self previous⟩
  · by_cases h : previous = current
    · subst h
      rw [compare_self]
      simp
    · have hd := compare_diffLines_ne_nil h
      rw [compare_of_ne h] at hd ⊢
      simp only [Bool.false_eq_true, false_iff]
      intro hc
      exact hd hc.2.2
  · by_cases h : previous = current
    · subst h
      rw [compare_self]
      simp
    · rw [compare_of_ne h]
      simpa using h

/-- C3: on two distinct texts whose line multisets agree (a pure
reordering), the report is `unchanged = false` with a non-empty unified
diff but empty added and removed sets. -/
theorem compare_reorder (a b : String) (hne : a ≠ b)
    (hperm : (pySplitlines false a).Perm (pySplitlines false b)) :
    (compare_and_log_changes a b).unchanged = false ∧
    (compare_and_log_changes a b).diffLines ≠ [] ∧
    (compare_and_log_changes a b).added = [] ∧
    (compare_and_log_changes a b).removed = [] := by
  have hd := compare_diffLines_ne_nil hne
  have hadded : (lineSet b).filter (fun l => decide (l ∉ lineSet a)) = [] := by
    rw [List.filter_eq_nil_iff]
    intro x hx
    have hxb : x ∈ pySplitlines false b := List.mem_dedup.mp hx
    have hxa : x ∈ lineSet a := List.mem_dedup.mpr (hperm.mem_iff.mpr hxb)
    simp [hxa]
  have hremoved : (lineSet a).filter (fun l => decide (l ∉ lineSet b)) = [] := by
    rw [List.filter_eq_nil_iff]
    intro x hx
    have hxa : x ∈ pySplitlines false a := List.mem_dedup.mp hx
    have hxb : x ∈ lineSet b := List.mem_dedup.mpr (hperm.mem_iff.mp hxa)
    simp [hxb]
  refine ⟨?_, hd, ?_, ?_⟩
  · rw [compare_of_ne hne]
  · rw [compare_of_ne hne, hadded]
    rfl
  · rw [compare_of_ne hne, hremoved]
    rfl

/-- C3 witness: `"x\ny\n"` and `"y\nx\n"` are a concrete reordering. -/
theorem compare_reorder_witness :
    (("x\ny\n" : String) ≠ "y\nx\n") ∧
    ((pySplitlines false "x\ny\n").Perm (pySplitlines false "y\nx\n")) ∧
    (compare_and_log_changes "x\ny\n" "y\nx\n").unchanged = false ∧
    (compare_and_log_changes "x\ny\n" "y\nx\n").diffLines ≠ [] ∧
    (compare_and_log_changes "x\ny\n" "y\nx\n").added = [] ∧
    (compare_and_log_changes "x\ny\n" "y\nx\n").removed = [] := by
  refine ⟨by decide, by decide, ?_⟩
  exact compare_reorder "x\ny\n" "y\nx\n" (by decide) (by decide)

/-- C4: the reported added and removed sets are disjoint, and swapping
the comparison's arguments swaps the two sets. -/
theorem compare_swap (a b : String) :
    (∀ x, x ∈ (compare_and_log_changes a b).added →
      x ∉ (compare_and_log_changes a b).removed) ∧
    (compare_and_log_changes a b).added =
      (compare_and_log_changes b a).removed ∧
    (compare_and_log_changes a b).removed =
      (compare_and_log_changes b a).added := by
  by_cases h : a = b
  · subst h
    rw [compare_self]
    exact ⟨fun x hx => absurd hx (List.not_mem_nil x), rfl, rfl⟩
  · have h' : b ≠ a := Ne.symm h
    rw [compare_of_ne h, compare_of_ne h']
    refine ⟨?_, rfl, rfl⟩
    intro x hx hy
    have hxa := (mem_sortedReport hx).1
    have hya := (mem_sortedReport hy).1
    have hxnot : x ∉ lineSet a := by
      have := (List.mem_filter.mp hxa).2
      simpa using this
    have hyin : x ∈ lineSet a := (List.mem_filter.mp hya).1
    exact hxnot hyin

/-- C4 witness: a concrete pair with non-empty added/removed. -/
theorem compare_swap_witness :
    ("q" ∈ (compare_and_log_changes "p\n" "q\n").added) ∧
    ("q" ∉ (compare_and_log_changes "p\n" "q\n").removed) ∧
    (compare_and_log_changes "p\n" "q\n").added =
      (compare_and_log_changes "q\n" "p\n").removed := by
  refine ⟨by decide, ?_, (compare_swap "p\n" "q\n").2.1⟩
  exact (compare_swap "p\n" "q\n").1 "q" (by decide)

/-- C5: blank or whitespace-only lines never appear in the reported
added/removed lists, and both lists are sorted lexicographically. -/
theorem compare_blank_sorted (a b : String) :
    (∀ x, x ∈ (compare_and_log_changes a b).added → isBlank x = false) ∧
    (∀ x, x ∈ (compare_and_log_changes a b).removed → isBlank x = false) ∧
    List.Sorted (· ≤ ·) (compare_and_log_changes a b).added ∧
    List.Sorted (· ≤ ·) (compare_and_log_changes a b).removed := by
  by_cases h : a = b
  · subst h
    rw [compare_self]
    exact ⟨fun x hx => absurd hx (List.not_mem_nil x),
      fun x hx => absurd hx (List.not_mem_nil x),
      List.sorted_nil, List.sorted_nil⟩
  · rw [compare_of_ne h]
    exact ⟨fun x hx => (mem_sortedReport hx).2,
      fun x hx => (mem_sortedReport hx).2,
      sorted_sortedReport _, sorted_sortedReport _⟩

/-- C5 witness: a whitespace-only line unique to the current side is
not reported, while the real route is, and the reports are sorted. -/
theorem compare_blank_sorted_witness :
    ("x" ∈ (compare_and_log_changes "a\n" "a\n  \nx\n").added) ∧
    isBlank "x" = false ∧
    ("  " ∉ (compare_and_log_changes "a\n" "a\n  \nx\n").added) := by
  refine ⟨by decide, ?_, by decide⟩
  exact (compare_blank_sorted "a\n" "a\n  \nx\n").1 "x" (by decide)

/-! ## Concrete configurations and environments for witnesses -/

/-- A local-mode configuration with persistence and statistics on. -/
def cfgLocal : Config :=
  { mode := "local",
    snapshot :=
      { store_previous := true,
        snapshot_file := "snapshots/previous_routes.txt" },
    statistics :=
      { enabled := true, collect_traffic := true,
        collect_connections := true, collect_ports := true } }

/-- A configuration with `store_previous: false`. -/
def cfgNoStore : Config :=
  { cfgLocal with
    snapshot :=
      { store_previous := false,
        snapshot_file := "snapshots/previous_routes.txt" } }

/-- A configuration whose snapshot path has no directory component. -/
def cfgBare : Config :=
  { cfgLocal with
    snapshot :=
      { store_previous := true,
        snapshot_file := "previous_routes.txt" } }

/-- An environment in which the local acquisition command fails. -/
def envDown : Env :=
  { ssh_result := none, local_result := none, readRaises := false,
    mkdirRaises := false, openRaises := false, writeRaises := false,
    psutilRaises := false }

/-- An environment in which acquisition succeeds and nothing raises. -/
def envUp : Env :=
  { envDown with local_result := some "10.0.0.0/8 via eth0\n" }

/-- Acquisition succeeds but psutil raises inside the stats block. -/
def envStatsFail : Env :=
  { envUp with psutilRaises := true }

/-- Acquisition succeeds; `open(snapshot_file, 'w')` succeeds (and
truncates), then the write raises. -/
def envWriteFail : Env :=
  { envUp with writeRaises := true }

/-! ## Claims about the SnapshotStore and CycleRunner -/

/-- C2: when the snapshot source fails, `run_once` returns a failed
result, the persisted snapshot file is untouched, and none of the
load / compare / stats / save steps run. -/
theorem run_once_acquisition_failure (cfg : Config) (env : Env)
    (fs : Option String) (h : check_routes cfg env = none) :
    (run_once cfg env fs).success = false ∧
    (run_once cfg env fs).fs = fs ∧
    (run_once cfg env fs).steps = [Step.acquire] ∧
    (run_once cfg env fs).compared = none := by
  simp [run_once, h]

/-- C2 witness: a failing local command leaves the stored snapshot as
it was. -/
theorem run_once_acquisition_failure_witness :
    check_routes cfgLocal envDown = none ∧
    (run_once cfgLocal envDown (some "old\n")).success = false ∧
    (run_once cfgLocal envDown (some "old\n")).fs = some "old\n" ∧
    (run_once cfgLocal envDown (some "old\n")).steps = [Step.acquire] := by
  have h := run_once_acquisition_failure cfgLocal envDown (some "old\n")
    (by decide)
  exact ⟨by decide, h.1, h.2.1, h.2.2.1⟩

/-- C6 (amended): when acquisition succeeds and no previous snapshot is
available, the cycle is a first run: the first-run report carries the
current snapshot's line count, no diff is computed, the save step is
still invoked with the current snapshot afterwards, and the result is
successful. -/
theorem run_once_first_run (cfg : Config) (env : Env) (fs : Option String)
    (cur : String) (hsrc : check_routes cfg env = some cur)
    (hprev : load_previous_snapshot cfg env fs = none) :
    (run_once cfg env fs).firstRun = true ∧
    (run_once cfg env fs).firstRunLineCount =
      some (pySplitlines false cur).length ∧
    (run_once cfg env fs).compared = none ∧
    (run_once cfg env fs).steps =
      [Step.acquire, Step.load, Step.firstRunReport, Step.stats, Step.save] ∧
    (run_once cfg env fs).fs = save_snapshot cfg env fs cur ∧
    (run_once cfg env fs).success = true := by
  simp [run_once, hsrc, hprev]

/-- C6 counterexample: with persistence disabled there is no previous
snapshot, the cycle is a first run and succeeds, yet the current
snapshot is not persisted afterwards — the claim's "the current snapshot
is still persisted" fails on this first-run case it covers. -/
theorem run_once_first_run_counterexample :
    cfgNoStore.snapshot.store_previous = false ∧
    (run_once cfgNoStore envUp none).firstRun = true ∧
    (run_once cfgNoStore envUp none).success = true ∧
    (run_once cfgNoStore envUp none).fs ≠ some "10.0.0.0/8 via eth0\n" := by
  decide

/-- C6 witness: a first run with persistence enabled does persist. -/
theorem run_once_first_run_witness :
    check_routes cfgLocal envUp = some "10.0.0.0/8 via eth0\n" ∧
    load_previous_snapshot cfgLocal envUp none = none ∧
    (run_once cfgLocal envUp none).firstRun = true ∧
    (run_once cfgLocal envUp none).firstRunLineCount = some 1 ∧
    (run_once cfgLocal envUp none).compared = none ∧
    (run_once cfgLocal envUp none).fs =
      save_snapshot cfgLocal envUp none "10.0.0.0/8 via eth0\n" ∧
    (run_once cfgLocal envUp none).success = true := by
  have h := run_once_first_run cfgLocal envUp none "10.0.0.0/8 via eth0\n"
    (by decide) (by decide)
  exact ⟨by decide, by decide, h.1, by decide, h.2.2.1, h.2.2.2.2.1,
    h.2.2.2.2.2⟩

/-- C8: a failure inside the statistics block is caught (the collector
returns instead of raising) and the cycle still persists the current
snapshot and returns success. -/
theorem run_once_stats_failure_harmless (cfg : Config) (env : Env)
    (fs : Option String) (cur e : String)
    (hsrc : check_routes cfg env = some cur)
    (hen : cfg.statistics.enabled = true)
    (herr : collect_network_stats_body cfg.statistics env = Except.error e) :
    collect_network_stats cfg.statistics env = false ∧
    (run_once cfg env fs).success = true ∧
    (run_once cfg env fs).fs = save_snapshot cfg env fs cur ∧
    Step.save ∈ (run_once cfg env fs).steps := by
  have hc : collect_network_stats cfg.statistics env = false := by
    simp [collect_network_stats, hen, herr]
  refine ⟨hc, ?_, ?_, ?_⟩ <;>
    · simp only [run_once, hsrc]
      cases load_previous_snapshot cfg env fs <;> simp

/-- C8 witness: psutil raising inside the stats block of a successful
cycle. -/
theorem run_once_stats_failure_harmless_witness :
    check_routes cfgLocal envStatsFail = some "10.0.0.0/8 via eth0\n" ∧
    collect_network_stats_body cfgLocal.statistics envStatsFail =
      Except.error "psutil error" ∧
    collect_network_stats cfgLocal.statistics envStatsFail = false ∧
    (run_once cfgLocal envStatsFail none).success = true ∧
    (run_once cfgLocal envStatsFail none).fs =
      save_snapshot cfgLocal envStatsFail none "10.0.0.0/8 via eth0\n" := by
  have h := run_once_stats_failure_harmless cfgLocal envStatsFail none
    "10.0.0.0/8 via eth0\n" "psutil error" (by decide) (by decide) (by rfl)
  exact ⟨by decide, by rfl, h.1, h.2.1, h.2.2.1⟩

/-- Characterisation of `save_snapshot` by its decision points. -/
theorem save_snapshot_eq (cfg : Config) (env : Env) (fs : Option String)
    (routes : String) :
    save_snapshot cfg env fs routes =
      if cfg.snapshot.store_previous = true ∧
          dirname cfg.snapshot.snapshot_file ≠ "" ∧
          env.mkdirRaises = false ∧ env.openRaises = false
      then (if env.writeRaises = true then some "" else some routes)
      else fs := by
  unfold save_snapshot save_snapshot_body
  by_cases h1 : cfg.snapshot.store_previous <;>
    by_cases h2 : dirname cfg.snapshot.snapshot_file = "" <;>
      by_cases h3 : env.mkdirRaises <;>
        by_cases h4 : env.openRaises <;>
          by_cases h5 : env.writeRaises <;>
            simp [h1, h2, h3, h4, h5]

/-- C9 (amended): `save_snapshot` never raises — every exception during
directory creation or writing is caught and logged as a warning, and a
file state is always returned: the old file untouched when `makedirs` or
the `open` fails, the file truncated when the write fails after a
successful `open` (which truncates the existing file), or the snapshot
fully written.  In particular, when the configured snapshot path has no
directory component, the internal `os.makedirs('')` call fails, the
write is skipped entirely, the file is left exactly as it was, and no
snapshot is ever persisted. -/
theorem save_snapshot_never_raises (cfg : Config) (env : Env)
    (fs : Option String) (routes : String)
    (h : dirname cfg.snapshot.snapshot_file = "") :
    (∀ (cfg2 : Config) (env2 : Env) (fs2 : Option String) (routes2 : String),
      save_snapshot cfg2 env2 fs2 routes2 = fs2 ∨
      save_snapshot cfg2 env2 fs2 routes2 = some "" ∨
      save_snapshot cfg2 env2 fs2 routes2 = some routes2) ∧
    (∀ (cfg2 : Config) (env2 : Env) (fs2 : Option String) (routes2 : String),
      save_snapshot cfg2 { env2 with mkdirRaises := true } fs2 routes2 = fs2) ∧
    (∀ (cfg2 : Config) (env2 : Env) (fs2 : Option String) (routes2 : String),
      save_snapshot cfg2 { env2 with openRaises := true } fs2 routes2 = fs2) ∧
    (∀ (cfg2 : Config) (env2 : Env) (fs2 : Option String) (routes2 : String),
      cfg2.snapshot.store_previous = true →
      dirname cfg2.snapshot.snapshot_file ≠ "" →
      save_snapshot cfg2
          { env2 with
              mkdirRaises := false, openRaises := false, writeRaises := true }
          fs2 routes2 = some "") ∧
    save_snapshot cfg env fs routes = fs := by
  refine ⟨?_, ?_, ?_, ?_, ?_⟩
  · intro cfg2 env2 fs2 routes2
    rw [save_snapshot_eq]
    split
    · split
      · exact Or.inr (Or.inl rfl)
      · exact Or.inr (Or.inr rfl)
    · exact Or.inl rfl
  · intro cfg2 env2 fs2 routes2
    rw [save_snapshot_eq]
    simp
  · intro cfg2 env2 fs2 routes2
    rw [save_snapshot_eq]
    simp
  · intro cfg2 env2 fs2 routes2 hs hd
    rw [save_snapshot_eq]
    simp [hs, hd]
  · rw [save_snapshot_eq]
    simp [h]

/-- C9 counterexample: an exception during writing does not leave the
existing snapshot file unchanged — `open(snapshot_file, 'w')` has
already truncated it, so after the caught write failure the stored
snapshot is the empty file, not the old content. -/
theorem save_snapshot_truncates_counterexample :
    save_snapshot cfgLocal envWriteFail (some "old\n") "new\n" = some "" ∧
    (some ("" : String) ≠ some "old\n") := by
  decide

/-- C9 witness: a bare snapshot filename means nothing is ever written
and an existing snapshot file stays as it was; a failing write after a
successful open leaves the truncated file. -/
theorem save_snapshot_never_raises_witness :
    dirname cfgBare.snapshot.snapshot_file = "" ∧
    save_snapshot cfgBare envUp (some "old\n") "new\n" = some "old\n" ∧
    cfgLocal.snapshot.store_previous = true ∧
    dirname cfgLocal.snapshot.snapshot_file ≠ "" ∧
    save_snapshot cfgLocal
        { envUp with
            mkdirRaises := false, openRaises := false, writeRaises := true }
        (some "old\n") "new\n" = some "" := by
  have h := save_snapshot_never_raises cfgBare envUp (some "old\n") "new\n"
    (by decide)
  exact ⟨by decide, h.2.2.2.2, by decide, by decide,
    h.2.2.2.1 cfgLocal envUp (some "old\n") "new\n" (by decide) (by decide)⟩

/-- C10 (amended): with `store_previous` false, `load_previous_snapshot`
always returns `None` and `save_snapshot` never writes, so every
`run_once` whose acquisition succeeds takes the first-run path, never
reads or writes the snapshot file, and returns success (an invocation
whose acquisition fails still returns failure). -/
theorem run_once_store_disabled (cfg : Config) (env : Env)
    (fs : Option String) (cur : String)
    (hstore : cfg.snapshot.store_previous = false)
    (hsrc : check_routes cfg env = some cur) :
    load_previous_snapshot cfg env fs = none ∧
    (∀ (env2 : Env) (fs2 : Option String) (routes2 : String),
      save_snapshot cfg env2 fs2 routes2 = fs2) ∧
    (run_once cfg env fs).firstRun = true ∧
    (run_once cfg env fs).compared = none ∧
    (run_once cfg env fs).fs = fs ∧
    (run_once cfg env fs).success = true := by
  have hload : load_previous_snapshot cfg env fs = none := by
    simp [load_previous_snapshot, hstore]
  have hsave : ∀ (env2 : Env) (fs2 : Option String) (routes2 : String),
      save_snapshot cfg env2 fs2 routes2 = fs2 := by
    intro env2 fs2 routes2
    simp [save_snapshot, hstore]
  refine ⟨hload, hsave, ?_, ?_, ?_, ?_⟩ <;>
    simp [run_once, hsrc, hload, hsave]

/-- C10 counterexample: with `store_previous` false but a failing
source, `run_once` does not take the first-run path and returns
failure — the claim's "every invocation ... returns success" fails. -/
theorem run_once_store_disabled_counterexample :
    cfgNoStore.snapshot.store_previous = false ∧
    (run_once cfgNoStore envDown none).firstRun = false ∧
    (run_once cfgNoStore envDown none).success = false := by
  decide

/-- C10 witness: a successful acquisition with persistence disabled. -/
theorem run_once_store_disabled_witness :
    cfgNoStore.snapshot.store_previous = false ∧
    check_routes cfgNoStore envUp = some "10.0.0.0/8 via eth0\n" ∧
    load_previous_snapshot cfgNoStore envUp (some "ghost\n") = none ∧
    save_snapshot cfgNoStore envUp (some "ghost\n") "new\n" = some "ghost\n" ∧
    (run_once cfgNoStore envUp (some "ghost\n")).firstRun = true ∧
    (run_once cfgNoStore envUp (some "ghost\n")).fs = some "ghost\n" ∧
    (run_once cfgNoStore envUp (some "ghost\n")).success = true := by
  have h := run_once_store_disabled cfgNoStore envUp (some "ghost\n")
    "10.0.0.0/8 via eth0\n" (by decide) (by decide)
  exact ⟨by decide, by decide, h.1, h.2.1 envUp (some "ghost\n") "new\n",
    h.2.2.1, h.2.2.2.2.1, h.2.2.2.2.2⟩

/-! ## Claims about the daemon loop -/

/-- As long as every observed cycle returns a `CycleResult` — successful
or failed — the loop never terminates: it is still running after any
number of iterations. -/
theorem run_periodically_results (outcomes : Nat → CycleOutcome)
    (h : ∀ j, ∃ r, outcomes j = CycleOutcome.result r) :
    ∀ (fuel i : Nat),
      run_periodically outcomes i fuel = LoopExit.running (i + fuel) := by
  intro fuel
  induction fuel with
  | zero =>
    intro i
    simp [run_periodically]
  | succ n ih =>
    intro i
    rcases h i with ⟨r, hr⟩
    simp only [run_periodically]
    rw [hr]
    rw [show i + (n + 1) = i + 1 + n by omega]
    exact ih (i + 1)

/-- If the first `k` cycles return results and cycle `k` raises an
unexpected error, the loop re-raises it there. -/
theorem run_periodically_raises_at (outcomes : Nat → CycleOutcome)
    (e : String) :
    ∀ (k i fuel : Nat),
      (∀ j, j < k → ∃ r, outcomes (i + j) = CycleOutcome.result r) →
      outcomes (i + k) = CycleOutcome.raises e → k < fuel →
      run_periodically outcomes i fuel = LoopExit.raised e (i + k) := by
  intro k
  induction k with
  | zero =>
    intro i fuel hb hk hf
    cases fuel with
    | zero => omega
    | succ n =>
      simp only [Nat.add_zero] at hk
      simp only [run_periodically]
      rw [hk]
      simp
  | succ m ih =>
    intro i fuel hb hk hf
    cases fuel with
    | zero => omega
    | succ n =>
      rcases hb 0 (Nat.succ_pos m) with ⟨r, hr⟩
      simp only [Nat.add_zero] at hr
      simp only [run_periodically]
      rw [hr]
      have hb2 : ∀ j, j < m → ∃ r, outcomes (i + 1 + j) = CycleOutcome.result r := by
        intro j hj
        have hx := hb (j + 1) (by omega)
        rwa [show i + (j + 1) = i + 1 + j by omega] at hx
      have hk2 : outcomes (i + 1 + m) = CycleOutcome.raises e := by
        rwa [show i + (m + 1) = i + 1 + m by omega] at hk
      rw [show i + (m + 1) = i + 1 + m by omega]
      exact ih (i + 1) n hb2 hk2 (by omega)

/-- C7: in repeating mode, cycles that return a result — even a failed
one, as every `run_once` invocation does in this embedding — never
terminate the loop, while an unexpected error raised out of a cycle is
re-raised and terminates it at that cycle. -/
theorem run_periodically_error_policy (outcomes : Nat → CycleOutcome)
    (k fuel : Nat) (e : String)
    (hbefore : ∀ j, j < k → ∃ r, outcomes j = CycleOutcome.result r)
    (hk : outcomes k = CycleOutcome.raises e)
    (hfuel : k < fuel) :
    run_periodically outcomes 0 fuel = LoopExit.raised e k ∧
    (∀ (cfg : Config) (envs : Nat → Env) (fs : Option String) (i fuel2 : Nat),
      run_periodically
        (fun j => CycleOutcome.result (run_once cfg (envs j) fs)) i fuel2 =
        LoopExit.running (i + fuel2)) := by
  refine ⟨?_, ?_⟩
  · have h0 : ∀ j, j < k → ∃ r, outcomes (0 + j) = CycleOutcome.result r := by
      intro j hj
      simpa using hbefore j hj
    have hk0 : outcomes (0 + k) = CycleOutcome.raises e := by simpa using hk
    have hall := run_periodically_raises_at outcomes e k 0 fuel h0 hk0 hfuel
    simpa using hall
  · intro cfg envs fs i fuel2
    exact run_periodically_results _ (fun j => ⟨_, rfl⟩) fuel2 i

/-- A daemon run whose first two cycles are failed `run_once` results
(source down) and whose third cycle raises an unexpected error. -/
def demoOutcomes : Nat → CycleOutcome := fun j =>
  if j < 2 then CycleOutcome.result (run_once cfgLocal envDown none)
  else CycleOutcome.raises "boom"

/-- C7 witness: the two failed cycles do not stop the loop, the
unexpected error of cycle 2 is re-raised there, and a stream made only
of (failed) `run_once` results keeps the loop running through all its
fuel. -/
theorem run_periodically_error_policy_witness :
    (run_once cfgLocal envDown none).success = false ∧
    run_periodically demoOutcomes 0 5 = LoopExit.raised "boom" 2 ∧
    run_periodically
      (fun _ => CycleOutcome.result (run_once cfgLocal envDown none)) 0 5 =
      LoopExit.running (0 + 5) := by
  have h := run_periodically_error_policy demoOutcomes 2 5 "boom"
    (fun j hj => ⟨run_once cfgLocal envDown none, by simp [demoOutcomes, hj]⟩)
    (by rfl) (by omega)
  exact ⟨by rfl, h.1, h.2 cfgLocal (fun _ => envDown) none 0 5⟩

end Tracker
